import Mathlib

/-!
Verification of the OCReceipt pipeline (payment-receipt OCR + LLM structuring).

Shallow embedding of the repository sources:
  * `src/preprocess.py`        — quality analysis and adaptive preprocessing
  * `src/extract_and_parse.py` — OCR adapter, `TransactionData` schema, `parse_with_llm`
  * `src/main.py`              — its own `extract_text_easyocr` / `parse_with_llm`
                                 variants and the orchestration flow
  * `src/save_to_json.py`      — persistence of the transaction history

Modelling conventions:
  * External library primitives (cv2 filters, PIL decoding, the EasyOCR
    recognizer, the LLM client, `json.loads`) are parameters of the embedding:
    each is a field of a record of operations, and the repository's control
    and data flow around them is translated from the source.
  * Python `(result, error)` tuples become Lean pairs of `Option`s.
  * JSON values are modelled by the inductive `Json`; JSON numbers are
    modelled as integers (floating-point values are outside the model).
  * Python dicts appear as insertion-ordered association lists with the
    dict-semantics helpers `dictGet` / `dictSet` (keys are unique in every
    dict produced by `json.loads`, so first-match lookup agrees with Python).
-/

/-- A JSON value as produced by Python `json.loads`.  JSON numbers are
modelled as integers; `obj` keeps the insertion order of keys. -/
inductive Json where
  | null
  | bool (b : Bool)
  | num (n : Int)
  | str (s : String)
  | arr (xs : List Json)
  | obj (fs : List (String × Json))

/-- Python `value is None` test on a decoded JSON value. -/
def Json.isNull : Json → Bool
  | .null => true
  | _ => false

/-- Dictionary lookup on an association list (Python `d[k]` / `d.get(k)`).
Keys are unique in dicts coming from `json.loads`, so first-match lookup
agrees with Python semantics. -/
def dictGet {α : Type} (k : String) : List (String × α) → Option α
  | [] => none
  | p :: ps => if p.1 = k then some p.2 else dictGet k ps

/-- Dictionary update/insert on an association list (Python `d[k] = v`):
replaces the value of an existing key in place, otherwise appends the new
pair at the end (Python dicts preserve insertion order). -/
def dictSet {α : Type} : List (String × α) → String → α → List (String × α)
  | [], k, v => [(k, v)]
  | p :: ps, k, v => if p.1 = k then (p.1, v) :: ps else p :: dictSet ps k v

mutual
/-- Python `repr` of a decoded JSON value, used by `str` on containers.
String escaping of exotic characters inside `repr` is not modelled. -/
def pyRepr : Json → String
  | .null => "None"
  | .bool true => "True"
  | .bool false => "False"
  | .num n => toString n
  | .str s => "\x27" ++ s ++ "\x27"
  | .arr xs => "[" ++ String.intercalate ", " (pyReprList xs) ++ "]"
  | .obj fs => "\x7b" ++ String.intercalate ", " (pyReprObj fs) ++ "\x7d"

/-- `repr` of the elements of a Python list. -/
def pyReprList : List Json → List String
  | [] => []
  | x :: xs => pyRepr x :: pyReprList xs

/-- `repr` of the entries of a Python dict. -/
def pyReprObj : List (String × Json) → List String
  | [] => []
  | p :: fs => ("\x27" ++ p.1 ++ "\x27: " ++ pyRepr p.2) :: pyReprObj fs
end

/-- Python `str()` of a decoded JSON value (`str(transaction_data[key])` in
`parse_with_llm`): identity on strings, `repr`-style rendering otherwise. -/
def pyStr : Json → String
  | .null => "None"
  | .bool true => "True"
  | .bool false => "False"
  | .num n => toString n
  | .str s => s
  | .arr xs => pyRepr (.arr xs)
  | .obj fs => pyRepr (.obj fs)

/-- Substring test (`needle` occurs inside `hay`), used to state whether an
error message carries a given piece of text. -/
def containsSub (needle : List Char) : List Char → Bool
  | [] => needle.isEmpty
  | c :: t => needle.isPrefixOf (c :: t) || containsSub needle t

/-! ## Images and the OpenCV primitives (`src/preprocess.py`) -/

/-- Encoded image bytes (the `image_bytes` input of the pipeline). -/
abbrev Bytes := List Nat

/-- A single-channel (grayscale) raster, flattened to its pixel intensities
(0–255).  The spatial arrangement of pixels is irrelevant to the verified
claims, which concern data flow and the scalar quality metrics. -/
abbrev GrayImg := List Nat

/-- A 3-channel raster (BGR from `cv2.imdecode`, or RGB from PIL),
flattened to its pixel triples. -/
abbrev ColorImg := List (Nat × Nat × Nat)

/-- A numpy image as stored in the debug `steps` dict: either the color
`original` entry or one of the grayscale intermediates. -/
inductive NpImg where
  | color (c : ColorImg)
  | gray (g : GrayImg)

/-- The debug trace: Python dict from stage name to intermediate image,
in insertion order. -/
abbrev Steps := List (String × NpImg)

/-- `PIL.Image` wrapper produced by `Image.fromarray`. -/
structure PILImage where
  arrayData : GrayImg

/-- `PIL.Image.fromarray` on a grayscale numpy array. -/
def Image.fromarray (g : GrayImg) : PILImage := ⟨g⟩

/-- The OpenCV primitives used by `preprocess.py`, as opaque parameters of
the embedding.  Each field models one library call with the fixed arguments
used in the source; the repository's control and data flow around them is
what the theorems are about. -/
structure CvOps where
  /-- `cv2.imdecode(np.frombuffer(image_bytes, np.uint8), cv2.IMREAD_COLOR)`;
  `none` models the `None` result on undecodable bytes. -/
  imdecode : Bytes → Option ColorImg
  /-- `cv2.cvtColor(image, cv2.COLOR_BGR2GRAY)`. -/
  cvtColorGray : ColorImg → GrayImg
  /-- `cv2.Laplacian(gray, cv2.CV_64F).var()`. -/
  laplacianVar : GrayImg → ℚ
  /-- `cv2.bilateralFilter(gray, 9, 75, 75)`. -/
  bilateralFilter : GrayImg → GrayImg
  /-- `cv2.createCLAHE(clipLimit=2.0, tileGridSize=(8, 8)).apply(gray)`. -/
  clahe : GrayImg → GrayImg
  /-- `cv2.adaptiveThreshold(gray, 255, cv2.ADAPTIVE_THRESH_GAUSSIAN_C,
  cv2.THRESH_BINARY, 11, 2)`. -/
  adaptiveThreshold : GrayImg → GrayImg
  /-- `cv2.morphologyEx(binary, cv2.MORPH_CLOSE, kernel)` with the 2×2
  rectangular structuring element. -/
  morphologyClose : GrayImg → GrayImg

/-- `np.mean(gray)`. -/
def npMean (xs : List Nat) : ℚ := (xs.map (fun x => (x : ℚ))).sum / xs.length

/-- The variance of the pixel intensities, i.e. the square of `np.std(gray)`.
The source compares `np.std(gray) < 50`; since both sides are nonnegative
this is equivalent to `npVar gray < 2500`, which is how every comparison
against the source's `contrast` is embedded (this keeps the metric inside
`ℚ`, where `np.std` itself would be an irrational square root). -/
def npVar (xs : List Nat) : ℚ :=
  (xs.map (fun x => ((x : ℚ) - npMean xs) * ((x : ℚ) - npMean xs))).sum / xs.length

/-- The quality metrics dict returned by `analyze_image_quality`.
`contrast_sq` carries the square of the source's `contrast` (see `npVar`). -/
structure QualityMetrics where
  brightness : ℚ
  contrast_sq : ℚ
  noise_level : ℚ
  is_binary : Bool
  needs_enhancement : Bool

/-- `analyze_image_quality` (`src/preprocess.py`).  In this program it is
only ever called on the 3-channel `cv2.imdecode` result, so the
`len(image.shape) == 3` branch (grayscale conversion) is always taken. -/
def analyze_image_quality (cv : CvOps) (image : ColorImg) : QualityMetrics :=
  let gray := cv.cvtColorGray image
  let brightness := npMean gray
  let contrast_sq := npVar gray
  let laplacian_var := cv.laplacianVar gray
  let unique_vals := gray.dedup.length
  { brightness := brightness
    contrast_sq := contrast_sq
    noise_level := laplacian_var
    is_binary := decide (unique_vals < 20)
    needs_enhancement :=
      decide (contrast_sq < 2500 ∨ brightness < 80 ∨ 180 < brightness) }

/-- `preprocess_image` (`src/preprocess.py`).  `Except.error` models the
exception raised when `cv2.imdecode` returns `None` and the following
attribute access fails (`.copy()` under debug, `.shape` otherwise); the
error strings carry the Python `AttributeError` messages without quotes. -/
def preprocess_image (cv : CvOps) (image_bytes : Bytes) (debug : Bool) :
    Except String (PILImage × Option Steps) :=
  match cv.imdecode image_bytes with
  | none =>
      .error (if debug then "NoneType object has no attribute copy"
              else "NoneType object has no attribute shape")
  | some image =>
      let steps : Steps := if debug then [("original", NpImg.color image)] else []
      let quality := analyze_image_quality cv image
      -- Step 1: grayscale (always)
      let gray := cv.cvtColorGray image
      let steps := if debug then steps ++ [("grayscale", NpImg.gray gray)] else steps
      -- Step 2: noise reduction (only if quality['noise_level'] < 100)
      let denoise := if quality.noise_level < 100 then
          let denoised := cv.bilateralFilter gray
          (denoised, if debug then steps ++ [("denoised", NpImg.gray denoised)] else steps)
        else (gray, steps)
      let gray := denoise.1
      let steps := denoise.2
      -- Step 3: contrast enhancement (only if quality['needs_enhancement'])
      let enhance := if quality.needs_enhancement then
          let enhanced := cv.clahe gray
          (enhanced, if debug then steps ++ [("contrast_enhanced", NpImg.gray enhanced)] else steps)
        else (gray, steps)
      let gray := enhance.1
      let steps := enhance.2
      -- Step 4: adaptive thresholding (always)
      let binary := cv.adaptiveThreshold gray
      let steps := if debug then steps ++ [("binary", NpImg.gray binary)] else steps
      -- Step 5: morphological closing; `morphed` is computed but the
      -- source then builds `final_image` from `binary`, not `morphed`
      let morphed := cv.morphologyClose binary
      let steps := if debug then steps ++ [("morphological", NpImg.gray morphed)] else steps
      let final_image := Image.fromarray binary
      if debug then .ok (final_image, some (steps ++ [("final", NpImg.gray binary)]))
      else .ok (final_image, none)

/-! ## OCR engine adapter (`src/extract_and_parse.py`, `src/main.py`) -/

/-- The process-global EasyOCR reader cache (`_reader` in
`extract_and_parse.py`) together with a construction counter.  A reader is
identified by the value of `next` at its construction time, so `next` is
the number of `easyocr.Reader(...)` constructions performed so far in the
process. -/
structure ReaderCache where
  cached : Option Nat
  next : Nat

/-- The state of a freshly started process: no reader constructed yet. -/
def initCache : ReaderCache := ⟨none, 0⟩

/-- `get_reader` (`src/extract_and_parse.py`): lazily constructs the EasyOCR
reader on first use and caches it in the module-global `_reader`. -/
def get_reader (st : ReaderCache) : Nat × ReaderCache :=
  match st.cached with
  | some r => (r, st)
  | none => (st.next, { cached := some st.next, next := st.next + 1 })

/-- The external OCR/PIL primitives used by the extraction functions. -/
structure OcrEnv where
  /-- `np.array(Image.open(io.BytesIO(image_bytes)).convert("RGB"))`;
  `Except.error` carries the message of the exception PIL raises on
  unreadable bytes. -/
  imageOpenRGB : Bytes → Except String ColorImg
  /-- `reader.readtext(image)` of the reader identified by the first
  argument; modelled as the list of recognized text fragments
  (the `result[1]` component of each EasyOCR tuple, in engine order). -/
  readtext : Nat → ColorImg → List String

/-- `extract_text_easyocr` (`src/extract_and_parse.py`, the second and
effective definition).  The `use_preprocessing` parameter is part of the
source signature (default `True` there).  Returns the Python
`(text, error)` pair and the updated reader-cache state. -/
def extract_text_easyocr (env : OcrEnv) (st : ReaderCache) (image_bytes : Bytes)
    (use_preprocessing : Bool) : (Option String × Option String) × ReaderCache :=
  let r := get_reader st
  match env.imageOpenRGB image_bytes with
  | .error e => ((none, some ("OCR Error: " ++ e)), r.2)
  | .ok image =>
      let results := env.readtext r.1 image
      let text := String.intercalate "\n" results
      ((some text.trim, none), r.2)

/-- `extract_text_easyocr_with_debug` (`src/extract_and_parse.py`).
Returns the Python `(text, steps, error)` triple and the updated
reader-cache state. -/
def extract_text_easyocr_with_debug (cv : CvOps) (env : OcrEnv)
    (st : ReaderCache) (image_bytes : Bytes) :
    (Option String × Option Steps × Option String) × ReaderCache :=
  let r := get_reader st
  match preprocess_image cv image_bytes true with
  | .error e => ((none, none, some ("OCR Error: " ++ e)), r.2)
  | .ok pre =>
      let steps := pre.2
      match env.imageOpenRGB image_bytes with
      | .error e => ((none, none, some ("OCR Error: " ++ e)), r.2)
      | .ok image =>
          let results := env.readtext r.1 image
          let text := String.intercalate "\n" results
          ((some text.trim, steps, none), r.2)

/-- `extract_text_easyocr` (`src/main.py`): constructs a fresh
`easyocr.Reader(["en"])` on every call — it does not consult the cache. -/
def main_extract_text_easyocr (env : OcrEnv) (st : ReaderCache)
    (image_bytes : Bytes) : (Option String × Option String) × ReaderCache :=
  let reader := st.next
  let st' : ReaderCache := { st with next := st.next + 1 }
  match env.imageOpenRGB image_bytes with
  | .error e => ((none, some ("OCR Error: " ++ e)), st')
  | .ok image =>
      let results := env.readtext reader image
      let text := String.intercalate "\n" results
      ((some text.trim, none), st')

/-! ## Receipt structuring engine (`src/extract_and_parse.py`, `src/main.py`) -/

/-- The 15 schema fields of `TransactionData`, in declaration order
(pydantic `model_dump` emits them in this order). -/
def schema_fields : List String :=
  ["transaction_status", "sender_name", "sender_account", "recipient_name",
   "recipient_account", "amount", "currency", "transaction_date",
   "transaction_time", "transaction_id", "payment_method", "bank_name",
   "notes", "fee", "any_other_details"]

/-- Validation of a single `Optional[str]` pydantic field: a missing key or
JSON `null` yields `None`, a JSON string is accepted, and any other value
(pydantic v2 does not coerce numbers or booleans to `str`) raises a
`ValidationError`, modelled as `Except.error`. -/
def validateField : Option Json → Except Unit (Option String)
  | none => .ok none
  | some Json.null => .ok none
  | some (Json.str s) => .ok (some s)
  | some _ => .error ()

/-- Validation of a list of schema fields against the keyword arguments of
`TransactionData(**transaction_data)` (extra keys are ignored by pydantic's
default `extra="ignore"` configuration, missing ones default to `None`). -/
def validateFields : List String → List (String × Json) →
    Except Unit (List (String × Option String))
  | [], _ => .ok []
  | name :: rest, fields =>
      match validateField (dictGet name fields), validateFields rest fields with
      | .ok v, .ok tl => .ok ((name, v) :: tl)
      | .ok _, .error e => .error e
      | .error e, _ => .error e

/-- `TransactionData(**transaction_data)` (`src/extract_and_parse.py`):
validates the parsed dict against the 15-field schema. -/
def TransactionData.validate (fields : List (String × Json)) :
    Except Unit (List (String × Option String)) :=
  validateFields schema_fields fields

/-- `validated_data.model_dump()`: the validated record as a dict whose
values are JSON strings or `null`. -/
def model_dump (validated : List (String × Option String)) : List (String × Json) :=
  validated.map (fun p => (p.1, match p.2 with | none => Json.null | some s => Json.str s))

/-- The coercion loop of `parse_with_llm` (`src/extract_and_parse.py`):
`for key in ["amount", "fee"]: if key in d and d[key] is not None:
d[key] = str(d[key])`. -/
def coerce_amount_fee (fields : List (String × Json)) : List (String × Json) :=
  fields.map (fun p =>
    if (p.1 = "amount" ∨ p.1 = "fee") ∧ p.2.isNull = false
    then (p.1, Json.str (pyStr p.2)) else p)

/-- The f-string prompt built by `parse_with_llm` in
`src/extract_and_parse.py` (verbatim, with `ocr_text` interpolated). -/
def build_prompt (ocr_text : String) : String :=
  "You are a transaction receipt parser. Below is the raw text extracted from a payment receipt screenshot using OCR.\n\n# RAW OCR TEXT:\n# "
  ++ ocr_text ++
  "\n\n# Analyze this text and extract transaction information in a structured JSON format.\n\n# Extract the following fields (use null if not found):\n# - transaction_status: (e.g., \"Successful\", \"Failed\", \"Pending\")\n# - sender_name: Full name of sender\n# - sender_account: Account number or ID of sender\n# - recipient_name: Full name of recipient\n# - recipient_account: Account number or ID of recipient\n# - amount: Numeric amount transferred (just the number)\n# - currency: Currency symbol or code (e.g., \"Rs\", \"PKR\", \"USD\")\n# - transaction_date: Date of transaction\n# - transaction_time: Time of transaction\n# - transaction_id: Transaction ID or reference number (like TID)\n# - payment_method: Method/platform used (e.g., \"EasyPaisa\", \"JazzCash\", \"Bank Transfer\")\n# - bank_name: Bank name if applicable\n# - notes: Any additional notes or messages\n# - fee: Transaction fee if mentioned\n# - any_other_details: Any other relevant information\n\n# Return ONLY a valid JSON object with these fields. Do not include any explanation or markdown formatting."

/-- The f-string prompt built by `parse_with_llm` in `src/main.py`
(verbatim, with `ocr_text` interpolated). -/
def main_build_prompt (ocr_text : String) : String :=
  "You are a transaction receipt parser. Below is the raw text extracted from a payment receipt screenshot using OCR.\n\nRAW OCR TEXT:\n"
  ++ ocr_text ++
  "\n\nAnalyze this text and extract transaction information in a structured JSON format.\n\nExtract the following fields (use null if not found):\n- transaction_status: (e.g., \"Successful\", \"Failed\", \"Pending\")\n- sender_name: Full name of sender\n- sender_account: Account number or ID of sender\n- recipient_name: Full name of recipient\n- recipient_account: Account number or ID of recipient\n- amount: Numeric amount transferred (just the number)\n- currency: Currency symbol or code (e.g., \"Rs\", \"PKR\", \"USD\")\n- transaction_date: Date of transaction\n- transaction_time: Time of transaction\n- transaction_id: Transaction ID or reference number (like TID)\n- payment_method: Method/platform used (e.g., \"EasyPaisa\", \"JazzCash\", \"Bank Transfer\")\n- bank_name: Bank name if applicable\n- notes: Any additional notes or messages\n- fee: Transaction fee if mentioned\n- any_other_details: Any other relevant information\n\nReturn ONLY a valid JSON object with these fields. Do not include any explanation or markdown formatting."

/-- The stand-in message for errors reported through the generic
`except Exception` branch (`"Error parsing with LLM: " + str(e)`); the
precise Python exception text on that branch is not modelled, and no
verified claim depends on it. -/
def genericLLMError : String := "Error parsing with LLM: <exception>"

/-- `parse_with_llm` (`src/extract_and_parse.py`).  The LLM completion call
is modelled by `client : String → String` from the prompt to the response
content (`completion.choices[0].message.content`), called once;
`json.loads` is the parameter `jsonLoads`, whose error carries
`str(e)` of the `JSONDecodeError`; `datetime.now().isoformat()` is the
parameter `now`.  Returns the Python `(data, error)` pair. -/
def parse_with_llm (jsonLoads : String → Except String Json) (now : String)
    (client : String → String) (ocr_text : String) :
    Option (List (String × Json)) × Option String :=
  let result := client (build_prompt ocr_text)
  match jsonLoads result with
  | .error e => (none, some ("Failed to parse JSON response: " ++ e))
  | .ok transaction_data =>
      match transaction_data with
      | .obj fields =>
          let coerced := coerce_amount_fee fields
          match TransactionData.validate coerced with
          | .error _ => (none, some genericLLMError)
          | .ok validated =>
              let final_data :=
                dictSet (dictSet (model_dump validated)
                  "extraction_timestamp" (Json.str now)) "raw_ocr_text" (Json.str ocr_text)
              (some final_data, none)
      | _ =>
          -- a non-dict JSON value makes `TransactionData(**transaction_data)`
          -- raise, landing in the generic `except Exception` branch
          (none, some genericLLMError)

/-- The markdown code-fence cleanup of `parse_with_llm` in `src/main.py`
(\x60 is the backtick character). -/
def strip_fences (response : String) : String :=
  let result := response.trim
  let result := if result.startsWith "\x60\x60\x60json" then result.drop 7 else result
  let result := if result.startsWith "\x60\x60\x60" then result.drop 3 else result
  let result := if result.endsWith "\x60\x60\x60" then result.dropRight 3 else result
  result.trim

/-- `parse_with_llm` (`src/main.py`): strips code fences, parses the JSON,
and attaches the two provenance keys directly to the parsed dict (no
schema validation and no amount/fee coercion in this variant).  On a
`JSONDecodeError` the returned error embeds the fence-stripped response
text. -/
def main_parse_with_llm (jsonLoads : String → Except String Json) (now : String)
    (client : String → String) (ocr_text : String) :
    Option (List (String × Json)) × Option String :=
  let response := client (main_build_prompt ocr_text)
  let result := strip_fences response
  match jsonLoads result with
  | .error e =>
      (none, some ("Failed to parse JSON response: " ++ e ++ "\nRaw response: " ++ result))
  | .ok transaction_data =>
      match transaction_data with
      | .obj fields =>
          let final_data :=
            dictSet (dictSet fields
              "extraction_timestamp" (Json.str now)) "raw_ocr_text" (Json.str ocr_text)
          (some final_data, none)
      | _ =>
          -- item assignment on a non-dict raises, landing in `except Exception`
          (none, some genericLLMError)

/-- Python truthiness of an optional error string (`if ocr_error:`). -/
def pyTruthy : Option String → Bool
  | none => false
  | some e => !(e == "")

/-- Python string interpolation of the optional OCR text
(`None` renders as `"None"`). -/
def pyStrOptText : Option String → String
  | none => "None"
  | some t => t

/-- The extract-then-parse orchestration of `src/main.py` (EasyOCR branch):
run `extract_text_easyocr`, stop with the OCR error if one is reported
(`st.stop()`), otherwise hand the text to `parse_with_llm`.  Display and
persistence are outside this function. -/
def process_receipt (env : OcrEnv) (jsonLoads : String → Except String Json)
    (now : String) (client : String → String) (st : ReaderCache)
    (image_bytes : Bytes) :
    (Option (List (String × Json)) × Option String) × ReaderCache :=
  let r := main_extract_text_easyocr env st image_bytes
  let ocr_text := r.1.1
  let ocr_error := r.1.2
  if pyTruthy ocr_error then ((none, ocr_error), r.2)
  else (main_parse_with_llm jsonLoads now client (pyStrOptText ocr_text), r.2)

/-! ## Persistence (`src/save_to_json.py`) -/

/-- The file system, at the JSON-value level: each existing file holds the
JSON value it stores (`json.dump`/`json.load` round-trip on that value). -/
abbrev FileSystem := String → Option Json

/-- `save_to_json` (`src/save_to_json.py`): read the existing history array
(or start from `[]` when the file does not exist), append the record, and
rewrite the whole file.  A file holding a non-array JSON value makes
`existing_data.append` raise, landing in the `except` branch with
`(False, str(e))` — the AttributeError text is abbreviated. -/
def save_to_json (fs : FileSystem) (data : Json) (filename : String) :
    (Bool × String) × FileSystem :=
  match fs filename with
  | some (Json.arr existing_data) =>
      ((true, filename),
        fun f => if f = filename then some (Json.arr (existing_data ++ [data])) else fs f)
  | some _ => ((false, "AttributeError"), fs)
  | none =>
      ((true, filename),
        fun f => if f = filename then some (Json.arr ([] ++ [data])) else fs f)

/-! ## Persistence claims -/

/-- C9: for every existing history file holding a JSON array of N records,
`save_to_json(record, filename)` rewrites the file as an (N+1)-element
array whose first N entries are the original array's entries in order,
whose last entry is the appended record, leaves every other file
untouched, and returns `(True, filename)`. -/
theorem save_to_json_appends_history (fs : FileSystem) (data : Json)
    (filename : String) (xs : List Json)
    (h : fs filename = some (Json.arr xs)) :
    (save_to_json fs data filename).1 = (true, filename) ∧
    (save_to_json fs data filename).2 filename = some (Json.arr (xs ++ [data])) ∧
    (xs ++ [data]).length = xs.length + 1 ∧
    (xs ++ [data]).take xs.length = xs ∧
    (xs ++ [data]).getLast? = some data ∧
    ∀ f, f ≠ filename → (save_to_json fs data filename).2 f = fs f := by
  refine ⟨?_, ?_, ?_, ?_, ?_, ?_⟩
  · simp [save_to_json, h]
  · simp [save_to_json, h]
  · simp
  · exact List.take_left xs [data]
  · exact List.getLast?_concat xs
  · intro f hf
    simp [save_to_json, h, hf]

/-- The concrete history file used by the C9 witness. -/
def fsOneRecord : FileSystem :=
  fun f => if f = "transactions.json" then some (Json.arr [Json.num 7]) else none

/-- Witness for C9 at a concrete one-record history file. -/
theorem save_to_json_appends_history_witness :
    (save_to_json fsOneRecord (Json.str "R") "transactions.json").1
        = (true, "transactions.json") ∧
    (save_to_json fsOneRecord (Json.str "R") "transactions.json").2 "transactions.json"
        = some (Json.arr ([Json.num 7] ++ [Json.str "R"])) ∧
    ([Json.num 7] ++ [Json.str "R"]).length = [Json.num 7].length + 1 ∧
    ([Json.num 7] ++ [Json.str "R"]).take [Json.num 7].length = [Json.num 7] ∧
    ([Json.num 7] ++ [Json.str "R"]).getLast? = some (Json.str "R") ∧
    ∀ f, f ≠ "transactions.json" →
      (save_to_json fsOneRecord (Json.str "R") "transactions.json").2 f = fsOneRecord f :=
  save_to_json_appends_history fsOneRecord (Json.str "R") "transactions.json"
    [Json.num 7] rfl

/-- C10: if the history file does not exist, `save_to_json(record, filename)`
creates it containing a one-element JSON array holding exactly the given
record, and returns `(True, filename)` rather than an error. -/
theorem save_to_json_creates_file (fs : FileSystem) (data : Json)
    (filename : String) (h : fs filename = none) :
    (save_to_json fs data filename).1 = (true, filename) ∧
    (save_to_json fs data filename).2 filename = some (Json.arr [data]) ∧
    ∀ f, f ≠ filename → (save_to_json fs data filename).2 f = fs f := by
  refine ⟨?_, ?_, ?_⟩
  · simp [save_to_json, h]
  · simp [save_to_json, h]
  · intro f hf
    simp [save_to_json, h, hf]

/-- The empty file system used by the C10 witness. -/
def fsEmpty : FileSystem := fun _ => none

/-- Witness for C10 on an empty file system. -/
theorem save_to_json_creates_file_witness :
    (save_to_json fsEmpty (Json.num 3) "transactions.json").1
        = (true, "transactions.json") ∧
    (save_to_json fsEmpty (Json.num 3) "transactions.json").2 "transactions.json"
        = some (Json.arr [Json.num 3]) ∧
    ∀ f, f ≠ "transactions.json" →
      (save_to_json fsEmpty (Json.num 3) "transactions.json").2 f = fsEmpty f :=
  save_to_json_creates_file fsEmpty (Json.num 3) "transactions.json" rfl

/-! ## Preprocessing claims -/

/-- `analyze_image_quality` does not consult the morphological-closing
primitive, so it is unaffected by replacing it. -/
theorem analyze_image_quality_morph_irrel (cv : CvOps) (m : GrayImg → GrayImg)
    (img : ColorImg) :
    analyze_image_quality { cv with morphologyClose := m } img
      = analyze_image_quality cv img := rfl

/-- C2: for every decodable image-bytes input, `preprocess_image` returns the
adaptive-threshold (pre-closing) binary image as the OCR-ready output —
independently of the morphological-closing primitive, whose result is
computed and recorded as the `morphological` trace entry but not returned —
and when debug is on the trace's `final` entry equals that same pre-closing
binary image (instantiating `morph` with `cv.morphologyClose` recovers the
unmodified operations, since the record update is then the identity). -/
theorem preprocess_image_returns_pre_closing_binary (cv : CvOps)
    (image_bytes : Bytes) (img : ColorImg)
    (h : cv.imdecode image_bytes = some img) :
    ∃ binary : GrayImg,
      (∃ g, binary = cv.adaptiveThreshold g) ∧
      ∀ morph : GrayImg → GrayImg, ∃ steps : Steps,
        preprocess_image { cv with morphologyClose := morph } image_bytes true
          = .ok (Image.fromarray binary, some steps) ∧
        dictGet "binary" steps = some (NpImg.gray binary) ∧
        dictGet "final" steps = some (NpImg.gray binary) ∧
        dictGet "morphological" steps = some (NpImg.gray (morph binary)) ∧
        preprocess_image { cv with morphologyClose := morph } image_bytes false
          = .ok (Image.fromarray binary, none) := by
  by_cases h1 : (analyze_image_quality cv img).noise_level < 100 <;>
    by_cases h2 : (analyze_image_quality cv img).needs_enhancement = true
  · refine ⟨cv.adaptiveThreshold (cv.clahe (cv.bilateralFilter (cv.cvtColorGray img))), ⟨_, rfl⟩, fun morph => ?_⟩
    refine ⟨[("original", NpImg.color img),
       ("grayscale", NpImg.gray (cv.cvtColorGray img)),
       ("denoised", NpImg.gray (cv.bilateralFilter (cv.cvtColorGray img))),
       ("contrast_enhanced", NpImg.gray (cv.clahe (cv.bilateralFilter (cv.cvtColorGray img)))),
       ("binary", NpImg.gray (cv.adaptiveThreshold (cv.clahe (cv.bilateralFilter (cv.cvtColorGray img))))),
       ("morphological", NpImg.gray (morph (cv.adaptiveThreshold (cv.clahe (cv.bilateralFilter (cv.cvtColorGray img)))))),
       ("final", NpImg.gray (cv.adaptiveThreshold (cv.clahe (cv.bilateralFilter (cv.cvtColorGray img)))))],
      ?_, ?_, ?_, ?_, ?_⟩ <;>
      simp [preprocess_image, h, analyze_image_quality_morph_irrel, h1, h2, dictGet]
  · refine ⟨cv.adaptiveThreshold (cv.bilateralFilter (cv.cvtColorGray img)), ⟨_, rfl⟩, fun morph => ?_⟩
    refine ⟨[("original", NpImg.color img),
       ("grayscale", NpImg.gray (cv.cvtColorGray img)),
       ("denoised", NpImg.gray (cv.bilateralFilter (cv.cvtColorGray img))),
       ("binary", NpImg.gray (cv.adaptiveThreshold (cv.bilateralFilter (cv.cvtColorGray img)))),
       ("morphological", NpImg.gray (morph (cv.adaptiveThreshold (cv.bilateralFilter (cv.cvtColorGray img))))),
       ("final", NpImg.gray (cv.adaptiveThreshold (cv.bilateralFilter (cv.cvtColorGray img))))],
      ?_, ?_, ?_, ?_, ?_⟩ <;>
      simp [preprocess_image, h, analyze_image_quality_morph_irrel, h1, h2, dictGet]
  · refine ⟨cv.adaptiveThreshold (cv.clahe (cv.cvtColorGray img)), ⟨_, rfl⟩, fun morph => ?_⟩
    refine ⟨[("original", NpImg.color img),
       ("grayscale", NpImg.gray (cv.cvtColorGray img)),
       ("contrast_enhanced", NpImg.gray (cv.clahe (cv.cvtColorGray img))),
       ("binary", NpImg.gray (cv.adaptiveThreshold (cv.clahe (cv.cvtColorGray img)))),
       ("morphological", NpImg.gray (morph (cv.adaptiveThreshold (cv.clahe (cv.cvtColorGray img))))),
       ("final", NpImg.gray (cv.adaptiveThreshold (cv.clahe (cv.cvtColorGray img))))],
      ?_, ?_, ?_, ?_, ?_⟩ <;>
      simp [preprocess_image, h, analyze_image_quality_morph_irrel, h1, h2, dictGet]
  · refine ⟨cv.adaptiveThreshold (cv.cvtColorGray img), ⟨_, rfl⟩, fun morph => ?_⟩
    refine ⟨[("original", NpImg.color img),
       ("grayscale", NpImg.gray (cv.cvtColorGray img)),
       ("binary", NpImg.gray (cv.adaptiveThreshold (cv.cvtColorGray img))),
       ("morphological", NpImg.gray (morph (cv.adaptiveThreshold (cv.cvtColorGray img)))),
       ("final", NpImg.gray (cv.adaptiveThreshold (cv.cvtColorGray img)))],
      ?_, ?_, ?_, ?_, ?_⟩ <;>
      simp [preprocess_image, h, analyze_image_quality_morph_irrel, h1, h2, dictGet]

/-- C8: for every decodable input whose grayscale image has variance
(squared contrast) at least 2500 — i.e. standard-deviation contrast ≥ 50 —
and mean brightness in [80, 180], `preprocess_image` skips the CLAHE stage:
the debug trace has no `contrast_enhanced` entry. -/
theorem preprocess_image_skips_clahe (cv : CvOps) (image_bytes : Bytes)
    (img : ColorImg) (h : cv.imdecode image_bytes = some img)
    (hc : 2500 ≤ (analyze_image_quality cv img).contrast_sq)
    (hb1 : 80 ≤ (analyze_image_quality cv img).brightness)
    (hb2 : (analyze_image_quality cv img).brightness ≤ 180) :
    ∃ pil steps,
      preprocess_image cv image_bytes true = .ok (pil, some steps) ∧
      dictGet "contrast_enhanced" steps = none := by
  have hc' : ¬ ((analyze_image_quality cv img).contrast_sq < 2500) := not_lt.mpr hc
  have hb1' : ¬ ((analyze_image_quality cv img).brightness < 80) := not_lt.mpr hb1
  have hb2' : ¬ (180 < (analyze_image_quality cv img).brightness) := not_lt.mpr hb2
  have hne : (analyze_image_quality cv img).needs_enhancement = false := by
    have e : (analyze_image_quality cv img).needs_enhancement
        = decide ((analyze_image_quality cv img).contrast_sq < 2500 ∨
            (analyze_image_quality cv img).brightness < 80 ∨
            180 < (analyze_image_quality cv img).brightness) := rfl
    rw [e]
    simp [hc', hb1', hb2']
  by_cases h1 : (analyze_image_quality cv img).noise_level < 100
  · refine ⟨Image.fromarray (cv.adaptiveThreshold (cv.bilateralFilter (cv.cvtColorGray img))),
      [("original", NpImg.color img),
       ("grayscale", NpImg.gray (cv.cvtColorGray img)),
       ("denoised", NpImg.gray (cv.bilateralFilter (cv.cvtColorGray img))),
       ("binary", NpImg.gray (cv.adaptiveThreshold (cv.bilateralFilter (cv.cvtColorGray img)))),
       ("morphological", NpImg.gray (cv.morphologyClose (cv.adaptiveThreshold (cv.bilateralFilter (cv.cvtColorGray img))))),
       ("final", NpImg.gray (cv.adaptiveThreshold (cv.bilateralFilter (cv.cvtColorGray img))))],
      ?_, ?_⟩ <;>
    simp [preprocess_image, h, h1, hne, dictGet]
  · refine ⟨Image.fromarray (cv.adaptiveThreshold (cv.cvtColorGray img)),
      [("original", NpImg.color img),
       ("grayscale", NpImg.gray (cv.cvtColorGray img)),
       ("binary", NpImg.gray (cv.adaptiveThreshold (cv.cvtColorGray img))),
       ("morphological", NpImg.gray (cv.morphologyClose (cv.adaptiveThreshold (cv.cvtColorGray img)))),
       ("final", NpImg.gray (cv.adaptiveThreshold (cv.cvtColorGray img)))],
      ?_, ?_⟩ <;>
    simp [preprocess_image, h, h1, hne, dictGet]

/-- Concrete OpenCV primitives for the witnesses: the decoded test image
grays to the pixels `[0, 255]` (brightness 127.5, variance 16256.25). -/
def cvW : CvOps :=
  { imdecode := fun b => if b = [] then none else some [(0, 10, 20), (255, 10, 20)]
    cvtColorGray := fun c => c.map (fun p => p.1)
    laplacianVar := fun g => (g.length : ℚ) * 100
    bilateralFilter := fun g => g
    clahe := fun g => g
    adaptiveThreshold := fun g => g.map (fun x => if x < 128 then 0 else 255)
    morphologyClose := fun g => g }

/-- Witness for C2 at the concrete primitives `cvW` and input `[1]`. -/
theorem preprocess_pre_closing_witness :
    ∃ binary : GrayImg,
      (∃ g, binary = cvW.adaptiveThreshold g) ∧
      ∀ morph : GrayImg → GrayImg, ∃ steps : Steps,
        preprocess_image { cvW with morphologyClose := morph } [1] true
          = .ok (Image.fromarray binary, some steps) ∧
        dictGet "binary" steps = some (NpImg.gray binary) ∧
        dictGet "final" steps = some (NpImg.gray binary) ∧
        dictGet "morphological" steps = some (NpImg.gray (morph binary)) ∧
        preprocess_image { cvW with morphologyClose := morph } [1] false
          = .ok (Image.fromarray binary, none) :=
  preprocess_image_returns_pre_closing_binary cvW [1] [(0, 10, 20), (255, 10, 20)] rfl

/-- Witness for C8 at the concrete primitives `cvW` and input `[1]`:
the test image has contrast ≥ 50 and brightness 127.5 ∈ [80, 180]. -/
theorem preprocess_skips_clahe_witness :
    2500 ≤ (analyze_image_quality cvW [(0, 10, 20), (255, 10, 20)]).contrast_sq ∧
    80 ≤ (analyze_image_quality cvW [(0, 10, 20), (255, 10, 20)]).brightness ∧
    (analyze_image_quality cvW [(0, 10, 20), (255, 10, 20)]).brightness ≤ 180 ∧
    ∃ pil steps,
      preprocess_image cvW [1] true = .ok (pil, some steps) ∧
      dictGet "contrast_enhanced" steps = none := by
  have hc : 2500 ≤ (analyze_image_quality cvW [(0, 10, 20), (255, 10, 20)]).contrast_sq := by
    norm_num [analyze_image_quality, cvW, npVar, npMean]
  have hb1 : 80 ≤ (analyze_image_quality cvW [(0, 10, 20), (255, 10, 20)]).brightness := by
    norm_num [analyze_image_quality, cvW, npMean]
  have hb2 : (analyze_image_quality cvW [(0, 10, 20), (255, 10, 20)]).brightness ≤ 180 := by
    norm_num [analyze_image_quality, cvW, npMean]
  exact ⟨hc, hb1, hb2,
    preprocess_image_skips_clahe cvW [1] [(0, 10, 20), (255, 10, 20)] rfl hc hb1 hb2⟩

/-! ## OCR adapter claims -/

/-- Concrete OCR/PIL primitives for witnesses and counterexamples: the raw
decode of any nonempty input is `[(1, 2, 3)]`, and the recognizer returns
`RAW TEXT` exactly on that raw image and `PREPROCESSED TEXT` on anything
else. -/
def envW : OcrEnv :=
  { imageOpenRGB := fun b =>
      if b = [] then .error "cannot identify image file" else .ok [(1, 2, 3)]
    readtext := fun _ img =>
      if img = [(1, 2, 3)] then ["RAW TEXT"] else ["PREPROCESSED TEXT"] }

/-- A sequence of pipeline invocations through the cached-reader extraction
of `extract_and_parse.py`, threading the process state. -/
def run_extract_calls (env : OcrEnv) (inputs : List Bytes) (st : ReaderCache) :
    ReaderCache :=
  inputs.foldl (fun s b => (extract_text_easyocr env s b true).2) st

/-- `extract_text_easyocr` changes the reader-cache state exactly as
`get_reader` does. -/
theorem extract_text_easyocr_state (env : OcrEnv) (st : ReaderCache)
    (b : Bytes) (up : Bool) :
    (extract_text_easyocr env st b up).2 = (get_reader st).2 := by
  cases h : env.imageOpenRGB b <;> simp [extract_text_easyocr, h]

/-- `get_reader` preserves the cache invariant: at most one construction so
far, and a construction has happened exactly when the cache is filled. -/
theorem get_reader_invariant (st : ReaderCache)
    (h : st.next ≤ 1 ∧ (st.cached.isSome = true ∨ st.next = 0)) :
    (get_reader st).2.next ≤ 1 ∧
      ((get_reader st).2.cached.isSome = true ∨ (get_reader st).2.next = 0) := by
  obtain ⟨h1, h2⟩ := h
  cases hc : st.cached with
  | some r => exact ⟨by simp [get_reader, hc, h1], Or.inl (by simp [get_reader, hc])⟩
  | none =>
      have hz : st.next = 0 := by
        rcases h2 with h2 | h2
        · rw [hc] at h2; simp at h2
        · exact h2
      refine ⟨by simp [get_reader, hc, hz], Or.inl (by simp [get_reader, hc])⟩

/-- C6 (amended): the `get_reader`-based extraction of
`extract_and_parse.py` constructs the OCR engine at most once across any
sequence of calls starting from a fresh process (`next` counts engine
constructions). -/
theorem cached_reader_constructed_at_most_once (env : OcrEnv)
    (inputs : List Bytes) :
    (run_extract_calls env inputs initCache).next ≤ 1 := by
  have key : ∀ (l : List Bytes) (st : ReaderCache),
      st.next ≤ 1 ∧ (st.cached.isSome = true ∨ st.next = 0) →
      (run_extract_calls env l st).next ≤ 1 ∧
        ((run_extract_calls env l st).cached.isSome = true ∨
          (run_extract_calls env l st).next = 0) := by
    intro l
    induction l with
    | nil => intro st h; exact h
    | cons b t ih =>
        intro st h
        have e : run_extract_calls env (b :: t) st
            = run_extract_calls env t (extract_text_easyocr env st b true).2 := rfl
        rw [e]
        apply ih
        rw [extract_text_easyocr_state]
        exact get_reader_invariant st h
  exact (key inputs initCache ⟨by simp [initCache], Or.inr rfl⟩).1

/-- C6 (counterexample): `main.py`'s `extract_text_easyocr` — the variant
the Streamlit flow actually calls — constructs a fresh engine on every
call: two calls from a fresh process perform two constructions, refuting
"constructed at most once per process lifetime" for that operation. -/
theorem main_extract_constructs_reader_each_call :
    ((main_extract_text_easyocr envW
        (main_extract_text_easyocr envW initCache [1]).2 [1]).2).next = 2 ∧
    ¬ (((main_extract_text_easyocr envW
        (main_extract_text_easyocr envW initCache [1]).2 [1]).2).next ≤ 1) := by
  have h2 : ((main_extract_text_easyocr envW
      (main_extract_text_easyocr envW initCache [1]).2 [1]).2).next = 2 := rfl
  exact ⟨h2, by intro hle; rw [h2] at hle; omega⟩

/-- The constant failing JSON decoder used by witnesses/counterexamples:
`json.loads` raising on every input with the standard message. -/
def jlFailW : String → Except String Json :=
  fun _ => .error "Expecting value: line 1 column 1 (char 0)"

/-- The constant LLM client used by witnesses/counterexamples: every prompt
is answered with the unparseable text `RAW_LLM_RESPONSE_TEXT`. -/
def clientW : String → String := fun _ => "RAW_LLM_RESPONSE_TEXT"

/-- C7: for every input whose bytes fail to decode, the pipeline reports the
wrapped decode error (`"OCR Error: " ++ str(e)`) and halts before any OCR
inference or LLM call: the result does not depend on the recognizer, the
JSON decoder, the timestamp, or the LLM client, and `extract_and_parse.py`'s
extraction reports the same error without invoking the recognizer. -/
theorem decode_failure_short_circuits (env : OcrEnv)
    (jl : String → Except String Json) (now : String)
    (client : String → String) (st : ReaderCache) (image_bytes : Bytes)
    (e : String) (h : env.imageOpenRGB image_bytes = .error e) :
    process_receipt env jl now client st image_bytes
      = ((none, some ("OCR Error: " ++ e)), { st with next := st.next + 1 }) ∧
    (∀ (rt2 : Nat → ColorImg → List String) jl2 now2 client2,
      process_receipt { env with readtext := rt2 } jl2 now2 client2 st image_bytes
        = process_receipt env jl now client st image_bytes) ∧
    (∀ up, (extract_text_easyocr env st image_bytes up).1
        = (none, some ("OCR Error: " ++ e))) := by
  have hnonempty : ("OCR Error: " ++ e) ≠ "" := by
    intro hcontra
    have hlen := congrArg String.length hcontra
    rw [String.length_append] at hlen
    have h11 : ("OCR Error: " : String).length = 11 := rfl
    rw [h11] at hlen
    have hz : (11 : Nat) + e.length = 0 := by simpa using hlen
    omega
  have hT : pyTruthy (some ("OCR Error: " ++ e)) = true := by
    simp [pyTruthy, hnonempty]
  refine ⟨?_, ?_, ?_⟩
  · simp [process_receipt, main_extract_text_easyocr, h, hT]
  · intro rt2 jl2 now2 client2
    have h2 : ({ env with readtext := rt2 } : OcrEnv).imageOpenRGB image_bytes
        = Except.error e := h
    simp [process_receipt, main_extract_text_easyocr, h, h2, hT]
  · intro up
    simp [extract_text_easyocr, h]

/-- Witness for C7 at the zero-byte input `[]`, whose PIL decode fails. -/
theorem decode_failure_short_circuits_witness :
    process_receipt envW jlFailW "TS" clientW initCache []
      = ((none, some ("OCR Error: " ++ "cannot identify image file")),
         { initCache with next := initCache.next + 1 }) ∧
    (∀ (rt2 : Nat → ColorImg → List String) jl2 now2 client2,
      process_receipt { envW with readtext := rt2 } jl2 now2 client2 initCache []
        = process_receipt envW jlFailW "TS" clientW initCache []) ∧
    (∀ up, (extract_text_easyocr envW initCache [] up).1
        = (none, some ("OCR Error: " ++ "cannot identify image file"))) :=
  decode_failure_short_circuits envW jlFailW "TS" clientW initCache []
    "cannot identify image file" rfl

/-- On decodable bytes `preprocess_image` always returns a result (every
branch of the stage pipeline ends in `Except.ok`). -/
theorem preprocess_image_ok (cv : CvOps) (image_bytes : Bytes) (img : ColorImg)
    (h : cv.imdecode image_bytes = some img) (debug : Bool) :
    ∃ r, preprocess_image cv image_bytes debug = .ok r := by
  simp only [preprocess_image, h]
  cases debug <;> exact ⟨_, rfl⟩

/-- C1: contrary to the claim, the text returned by both extraction
operations is the recognition result of the raw PIL-decoded image `rimg`:
it is computed by `readtext` on `rimg` alone, for every choice of the
preprocessing primitives — in the debug variant the preprocessed image is
computed (the trace is returned) and then ignored by the recognition. -/
theorem ocr_recognizes_raw_decoded_image (cv : CvOps) (env : OcrEnv)
    (st : ReaderCache) (image_bytes : Bytes) (rimg : ColorImg)
    (hraw : env.imageOpenRGB image_bytes = .ok rimg) :
    (∀ up : Bool, (extract_text_easyocr env st image_bytes up).1
        = (some (String.intercalate "\n"
            (env.readtext (get_reader st).1 rimg)).trim, none)) ∧
    (∀ img, cv.imdecode image_bytes = some img →
      ∃ stepsOpt, (extract_text_easyocr_with_debug cv env st image_bytes).1
        = (some (String.intercalate "\n"
            (env.readtext (get_reader st).1 rimg)).trim, stepsOpt, none)) := by
  constructor
  · intro up
    simp [extract_text_easyocr, hraw]
  · intro img h2
    obtain ⟨r, hr⟩ := preprocess_image_ok cv image_bytes img h2 true
    exact ⟨r.2, by simp [extract_text_easyocr_with_debug, hr, hraw]⟩

/-- The 3-channel image EasyOCR's internal conversion would produce from a
grayscale input, used to express what recognition of the preprocessed image
would have returned. -/
def grayToRGB (g : GrayImg) : ColorImg := g.map (fun x => (x, x, x))

/-- Witness for C1 at the concrete primitives: the returned text is the
recognition of the raw decoded image (`RAW TEXT`), while recognition of the
preprocessed binarized image would return `PREPROCESSED TEXT`. -/
theorem ocr_recognizes_raw_witness :
    (∀ up : Bool, (extract_text_easyocr envW initCache [1] up).1
        = (some (String.intercalate "\n"
            (envW.readtext (get_reader initCache).1 [(1, 2, 3)])).trim, none)) ∧
    (∀ img, cvW.imdecode [1] = some img →
      ∃ stepsOpt, (extract_text_easyocr_with_debug cvW envW initCache [1]).1
        = (some (String.intercalate "\n"
            (envW.readtext (get_reader initCache).1 [(1, 2, 3)])).trim,
           stepsOpt, none)) ∧
    envW.readtext 0 [(1, 2, 3)] = ["RAW TEXT"] ∧
    envW.readtext 0 (grayToRGB (cvW.adaptiveThreshold (cvW.cvtColorGray
        [(0, 10, 20), (255, 10, 20)]))) = ["PREPROCESSED TEXT"] :=
  ⟨(ocr_recognizes_raw_decoded_image cvW envW initCache [1] [(1, 2, 3)] rfl).1,
   (ocr_recognizes_raw_decoded_image cvW envW initCache [1] [(1, 2, 3)] rfl).2,
   rfl, rfl⟩

/-! ## Structuring engine claims -/

/-- `dictGet` misses exactly the keys absent from the dict. -/
theorem dictGet_eq_none_iff {α : Type} (k : String) (l : List (String × α)) :
    dictGet k l = none ↔ k ∉ l.map Prod.fst := by
  induction l with
  | nil => simp [dictGet]
  | cons p t ih =>
      by_cases hp : p.1 = k
      · subst hp
        simp [dictGet]
      · simp only [dictGet, hp, if_false, List.map_cons, List.mem_cons]
        rw [ih]
        constructor
        · intro h hc
          rcases hc with hc | hc
          · exact hp hc.symm
          · exact h hc
        · intro h hc
          exact h (Or.inr hc)

/-- `dictGet` on an appended dict looks left first. -/
theorem dictGet_append {α : Type} (k : String) (l1 l2 : List (String × α)) :
    dictGet k (l1 ++ l2)
      = match dictGet k l1 with
        | some v => some v
        | none => dictGet k l2 := by
  induction l1 with
  | nil => simp [dictGet]
  | cons p t ih => by_cases hp : p.1 = k <;> simp [dictGet, hp, ih]

/-- Setting a key that is not present appends the pair at the end. -/
theorem dictSet_fresh {α : Type} (l : List (String × α)) (k : String) (v : α)
    (h : k ∉ l.map Prod.fst) : dictSet l k v = l ++ [(k, v)] := by
  induction l with
  | nil => rfl
  | cons p t ih =>
      simp only [List.map_cons, List.mem_cons, not_or] at h
      have hp : ¬ (p.1 = k) := fun hc => h.1 hc.symm
      simp [dictSet, hp, ih h.2]

/-- A successful validation emits exactly the requested field names, in order. -/
theorem validateFields_keys (names : List String) :
    ∀ (fields : List (String × Json)) (out : List (String × Option String)),
    validateFields names fields = .ok out → out.map Prod.fst = names := by
  induction names with
  | nil =>
      intro fields out h
      simp [validateFields] at h
      simp [← h]
  | cons n t ih =>
      intro fields out h
      simp only [validateFields] at h
      cases hv : validateField (dictGet n fields) with
      | error e => rw [hv] at h; simp at h
      | ok v =>
          cases ht : validateFields t fields with
          | error e => rw [hv, ht] at h; simp at h
          | ok tl =>
              rw [hv, ht] at h
              simp at h
              subst h
              simp [ih fields tl ht]

/-- A successful validation holds, under each requested name, the result of validating that field of the input dict. -/
theorem validateFields_dictGet (names : List String) :
    ∀ (fields : List (String × Json)) (out : List (String × Option String))
      (name : String),
    validateFields names fields = .ok out → name ∈ names →
    ∃ w, validateField (dictGet name fields) = .ok w ∧ dictGet name out = some w := by
  induction names with
  | nil => intro _ _ _ _ hmem; simp at hmem
  | cons n t ih =>
      intro fields out name h hmem
      simp only [validateFields] at h
      cases hv : validateField (dictGet n fields) with
      | error e => rw [hv] at h; simp at h
      | ok v =>
          cases ht : validateFields t fields with
          | error e => rw [hv, ht] at h; simp at h
          | ok tl =>
              rw [hv, ht] at h
              simp at h
              subst h
              by_cases hn : n = name
              · subst hn
                exact ⟨v, hv, by simp [dictGet]⟩
              · have hmem' : name ∈ t := by
                  rcases List.mem_cons.mp hmem with h' | h'
                  · exact absurd h'.symm hn
                  · exact h'
                obtain ⟨w, hw, hg⟩ := ih fields tl name ht hmem'
                refine ⟨w, hw, ?_⟩
                simpa [dictGet, hn] using hg

/-- `model_dump` preserves the field names. -/
theorem model_dump_keys (l : List (String × Option String)) :
    (model_dump l).map Prod.fst = l.map Prod.fst := by
  induction l with
  | nil => rfl
  | cons p t ih => simp [model_dump]

/-- `model_dump` maps each looked-up value to its JSON form. -/
theorem dictGet_model_dump (k : String) (l : List (String × Option String)) :
    dictGet k (model_dump l)
      = (dictGet k l).map
          (fun v => match v with | none => Json.null | some s => Json.str s) := by
  induction l with
  | nil => rfl
  | cons p t ih =>
      simp only [model_dump] at ih ⊢
      by_cases hp : p.1 = k <;> simp [dictGet, hp, ih]

/-- Every value emitted by `model_dump` is a JSON string or `null`. -/
theorem model_dump_values (l : List (String × Option String)) :
    ∀ p ∈ model_dump l, (∃ s, p.2 = Json.str s) ∨ p.2 = Json.null := by
  intro p hp
  obtain ⟨x, hx, hfx⟩ := List.mem_map.mp hp
  cases hv : x.2 with
  | none => right; rw [← hfx]; simp [hv]
  | some s => left; exact ⟨s, by rw [← hfx]; simp [hv]⟩

/-- The amount/fee coercion does not change the keys. -/
theorem coerce_amount_fee_keys (l : List (String × Json)) :
    (coerce_amount_fee l).map Prod.fst = l.map Prod.fst := by
  induction l with
  | nil => rfl
  | cons p t ih =>
      by_cases hc : (p.1 = "amount" ∨ p.1 = "fee") ∧ p.2.isNull = false <;>
        simp [coerce_amount_fee, hc] at ih ⊢ <;> exact ih

/-- A value other than JSON `null` fails the `is None` test. -/
theorem Json.isNull_eq_false (v : Json) (h : v ≠ Json.null) : v.isNull = false := by
  cases v <;> simp [Json.isNull] <;> exact h rfl

/-- The coercion loop replaces a present non-null `amount`/`fee` value by its Python string form. -/
theorem dictGet_coerce_amount_fee (k : String) (hk : k = "amount" ∨ k = "fee")
    (l : List (String × Json)) (v : Json)
    (hv : dictGet k l = some v) (hnn : v.isNull = false) :
    dictGet k (coerce_amount_fee l) = some (Json.str (pyStr v)) := by
  induction l with
  | nil => simp [dictGet] at hv
  | cons p t ih =>
      by_cases hp : p.1 = k
      · have hv2 : p.2 = v := by simpa [dictGet, hp] using hv
        have hcond : (p.1 = "amount" ∨ p.1 = "fee") ∧ p.2.isNull = false :=
          ⟨by rw [hp]; exact hk, by rw [hv2]; exact hnn⟩
        have e1 : coerce_amount_fee (p :: t)
            = (p.1, Json.str (pyStr p.2)) :: coerce_amount_fee t := by
          simp [coerce_amount_fee, hcond]
        rw [e1]
        simp [dictGet, hp, hv2]
      · have hv' : dictGet k t = some v := by simpa [dictGet, hp] using hv
        have e1 : ∃ q : String × Json, q.1 = p.1 ∧ coerce_amount_fee (p :: t)
            = q :: coerce_amount_fee t := by
          by_cases hcond : (p.1 = "amount" ∨ p.1 = "fee") ∧ p.2.isNull = false
          · exact ⟨(p.1, Json.str (pyStr p.2)), rfl, by simp [coerce_amount_fee, hcond]⟩
          · exact ⟨p, rfl, by simp [coerce_amount_fee, hcond]⟩
        obtain ⟨q, hq1, hq2⟩ := e1
        rw [hq2]
        have hqk : ¬ (q.1 = k) := by rw [hq1]; exact hp
        simp only [dictGet, hqk, if_false]
        exact ih hv'

/-- `extraction_timestamp` is not one of the 15 schema fields. -/
theorem schema_has_no_timestamp : ("extraction_timestamp" : String) ∉ schema_fields := by
  decide

/-- `raw_ocr_text` is not one of the 15 schema fields. -/
theorem schema_has_no_raw_text : ("raw_ocr_text" : String) ∉ schema_fields := by
  decide

/-- Inversion of a successful `parse_with_llm` run: the LLM response parsed
to a JSON object, validation succeeded, and the final record is the
`model_dump` of the validated fields followed by the two provenance
entries. -/
theorem parse_with_llm_success_inv (jl : String → Except String Json)
    (now : String) (client : String → String) (ocr_text : String)
    (final : List (String × Json)) (err : Option String)
    (h : parse_with_llm jl now client ocr_text = (some final, err)) :
    ∃ fields validated,
      jl (client (build_prompt ocr_text)) = .ok (Json.obj fields) ∧
      TransactionData.validate (coerce_amount_fee fields) = .ok validated ∧
      validated.map Prod.fst = schema_fields ∧
      final = model_dump validated
        ++ [("extraction_timestamp", Json.str now)]
        ++ [("raw_ocr_text", Json.str ocr_text)] ∧
      err = none := by
  cases hjl : jl (client (build_prompt ocr_text)) with
  | error e => simp only [parse_with_llm, hjl] at h; simp at h
  | ok td =>
      cases td with
      | obj fields =>
          cases hval : TransactionData.validate (coerce_amount_fee fields) with
          | error u =>
              simp only [parse_with_llm, hjl, hval] at h
              simp at h
          | ok validated =>
              simp only [parse_with_llm, hjl, hval] at h
              simp at h
              obtain ⟨h1, h2⟩ := h
              have hkeysV : validated.map Prod.fst = schema_fields :=
                validateFields_keys _ _ _ hval
              have hkeysD : (model_dump validated).map Prod.fst = schema_fields := by
                rw [model_dump_keys]; exact hkeysV
              have hts : ("extraction_timestamp" : String)
                  ∉ (model_dump validated).map Prod.fst := by
                rw [hkeysD]; exact schema_has_no_timestamp
              have e1 : dictSet (model_dump validated) "extraction_timestamp"
                    (Json.str now)
                  = model_dump validated ++ [("extraction_timestamp", Json.str now)] :=
                dictSet_fresh _ _ _ hts
              have hraw : ("raw_ocr_text" : String)
                  ∉ (model_dump validated
                      ++ [("extraction_timestamp", Json.str now)]).map Prod.fst := by
                intro hc
                rw [List.map_append, hkeysD] at hc
                rcases List.mem_append.mp hc with hc | hc
                · exact schema_has_no_raw_text hc
                · simp at hc
              have e2 : dictSet (model_dump validated
                      ++ [("extraction_timestamp", Json.str now)]) "raw_ocr_text"
                    (Json.str ocr_text)
                  = model_dump validated ++ [("extraction_timestamp", Json.str now)]
                      ++ [("raw_ocr_text", Json.str ocr_text)] :=
                dictSet_fresh _ _ _ hraw
              refine ⟨fields, validated, rfl, hval, hkeysV, ?_, h2.symm⟩
              rw [← h1, e1, e2]
      | null => simp only [parse_with_llm, hjl] at h; simp at h
      | bool b => simp only [parse_with_llm, hjl] at h; simp at h
      | num n => simp only [parse_with_llm, hjl] at h; simp at h
      | str s => simp only [parse_with_llm, hjl] at h; simp at h
      | arr xs => simp only [parse_with_llm, hjl] at h; simp at h

/-- C3: whenever `parse_with_llm` succeeds, the returned record has exactly
the 15 schema fields plus `extraction_timestamp` and `raw_ocr_text` as its
keys (in that order): every key of the parsed LLM JSON outside the schema
is dropped, every schema field missing from the parsed JSON defaults to
JSON `null`, and `raw_ocr_text` holds the input OCR text verbatim. -/
theorem parse_with_llm_success_shape (jl : String → Except String Json)
    (now : String) (client : String → String) (ocr_text : String)
    (final : List (String × Json)) (err : Option String)
    (h : parse_with_llm jl now client ocr_text = (some final, err)) :
    final.map Prod.fst = schema_fields ++ ["extraction_timestamp", "raw_ocr_text"] ∧
    dictGet "raw_ocr_text" final = some (Json.str ocr_text) ∧
    (∀ k, k ∉ schema_fields ++ ["extraction_timestamp", "raw_ocr_text"] →
      dictGet k final = none) ∧
    (∀ fields name, jl (client (build_prompt ocr_text)) = .ok (Json.obj fields) →
      name ∈ schema_fields → dictGet name fields = none →
      dictGet name final = some Json.null) := by
  obtain ⟨fields, validated, hjl, hval, hkeysV, hfinal, herr⟩ :=
    parse_with_llm_success_inv jl now client ocr_text final err h
  have hkeysD : (model_dump validated).map Prod.fst = schema_fields := by
    rw [model_dump_keys]; exact hkeysV
  have hkeysF : final.map Prod.fst
      = schema_fields ++ ["extraction_timestamp", "raw_ocr_text"] := by
    rw [hfinal]
    simp [List.map_append, hkeysD]
  refine ⟨hkeysF, ?_, ?_, ?_⟩
  · rw [hfinal, dictGet_append]
    have hnone : dictGet "raw_ocr_text"
        (model_dump validated ++ [("extraction_timestamp", Json.str now)]) = none := by
      apply (dictGet_eq_none_iff _ _).mpr
      intro hc
      rw [List.map_append, hkeysD] at hc
      rcases List.mem_append.mp hc with hc | hc
      · exact schema_has_no_raw_text hc
      · simp at hc
    rw [hnone]
    simp [dictGet]
  · intro k hk
    apply (dictGet_eq_none_iff _ _).mpr
    rw [hkeysF]
    exact hk
  · intro fields0 name hjl0 hname hmiss
    have hfe : fields0 = fields := by
      rw [hjl0] at hjl
      have := Except.ok.inj hjl
      exact (Json.obj.inj this).symm ▸ rfl
    subst hfe
    have hcoe : dictGet name (coerce_amount_fee fields0) = none := by
      apply (dictGet_eq_none_iff _ _).mpr
      rw [coerce_amount_fee_keys]
      exact (dictGet_eq_none_iff _ _).mp hmiss
    obtain ⟨w, hw, hg⟩ :=
      validateFields_dictGet schema_fields (coerce_amount_fee fields0) validated
        name hval hname
    rw [hcoe] at hw
    have hwnone : none = w := by
      simpa [validateField] using hw
    subst hwnone
    have hD : dictGet name (model_dump validated) = some Json.null := by
      rw [dictGet_model_dump, hg]
      rfl
    rw [hfinal, dictGet_append, dictGet_append, hD]

/-- C4: if the parsed LLM JSON maps `amount` (or `fee`) to a present,
non-null value `v`, the successful record holds that field as the Python
string representation `str(v)` — and every value in the record is a JSON
string or `null`, never a native number. -/
theorem parse_with_llm_stringifies_amount_fee (jl : String → Except String Json)
    (now : String) (client : String → String) (ocr_text : String)
    (final : List (String × Json)) (err : Option String)
    (fields : List (String × Json)) (k : String) (v : Json)
    (h : parse_with_llm jl now client ocr_text = (some final, err))
    (hjl : jl (client (build_prompt ocr_text)) = .ok (Json.obj fields))
    (hk : k = "amount" ∨ k = "fee")
    (hv : dictGet k fields = some v) (hnn : v ≠ Json.null) :
    dictGet k final = some (Json.str (pyStr v)) ∧
    ∀ p ∈ final, (∃ s, p.2 = Json.str s) ∨ p.2 = Json.null := by
  obtain ⟨fields1, validated, hjl1, hval, hkeysV, hfinal, herr⟩ :=
    parse_with_llm_success_inv jl now client ocr_text final err h
  have hfe : fields1 = fields := by
    rw [hjl1] at hjl
    exact Json.obj.inj (Except.ok.inj hjl)
  rw [hfe] at hval
  have hk_schema : k ∈ schema_fields := by
    rcases hk with hk | hk <;> subst hk <;> decide
  have hcoe : dictGet k (coerce_amount_fee fields) = some (Json.str (pyStr v)) :=
    dictGet_coerce_amount_fee k hk fields v hv (Json.isNull_eq_false v hnn)
  obtain ⟨w, hw, hg⟩ :=
    validateFields_dictGet schema_fields (coerce_amount_fee fields) validated
      k hval hk_schema
  rw [hcoe] at hw
  have hwv : some (pyStr v) = w := by
    simpa [validateField] using hw
  subst hwv
  have hD : dictGet k (model_dump validated) = some (Json.str (pyStr v)) := by
    rw [dictGet_model_dump, hg]
    rfl
  constructor
  · rw [hfinal, dictGet_append, dictGet_append, hD]
  · intro p hp
    rw [hfinal] at hp
    rcases List.mem_append.mp hp with hp | hp
    · rcases List.mem_append.mp hp with hp | hp
      · exact model_dump_values validated p hp
      · left
        simp at hp
        exact ⟨now, by rw [hp]⟩
    · left
      simp at hp
      exact ⟨ocr_text, by rw [hp]⟩

/-- A concrete decoder for witnesses: every response parses to
`{"amount": 1500, "bogus_key": "x"}`. -/
def jlObjW : String → Except String Json :=
  fun _ => .ok (Json.obj [("amount", Json.num 1500), ("bogus_key", Json.str "x")])

/-- Witness for C3 at a concrete decoder yielding
`{"amount": 1500, "bogus_key": "x"}`. -/
theorem parse_success_shape_witness :
    ((parse_with_llm jlObjW "TS" clientW "OCRTXT").1.getD []).map Prod.fst
        = schema_fields ++ ["extraction_timestamp", "raw_ocr_text"] ∧
    dictGet "raw_ocr_text" ((parse_with_llm jlObjW "TS" clientW "OCRTXT").1.getD [])
        = some (Json.str "OCRTXT") ∧
    (∀ k, k ∉ schema_fields ++ ["extraction_timestamp", "raw_ocr_text"] →
      dictGet k ((parse_with_llm jlObjW "TS" clientW "OCRTXT").1.getD []) = none) ∧
    (∀ fields name, jlObjW (clientW (build_prompt "OCRTXT")) = .ok (Json.obj fields) →
      name ∈ schema_fields → dictGet name fields = none →
      dictGet name ((parse_with_llm jlObjW "TS" clientW "OCRTXT").1.getD [])
        = some Json.null) :=
  parse_with_llm_success_shape jlObjW "TS" clientW "OCRTXT"
    ((parse_with_llm jlObjW "TS" clientW "OCRTXT").1.getD []) none rfl

/-- Witness for C4: the LLM number `1500` under `amount` ends up as the
string `"1500"` in the record. -/
theorem parse_stringifies_amount_witness :
    dictGet "amount" ((parse_with_llm jlObjW "TS" clientW "OCRTXT").1.getD [])
        = some (Json.str (pyStr (Json.num 1500))) ∧
    (∀ p ∈ (parse_with_llm jlObjW "TS" clientW "OCRTXT").1.getD [],
      (∃ s, p.2 = Json.str s) ∨ p.2 = Json.null) ∧
    pyStr (Json.num 1500) = "1500" :=
  ⟨(parse_with_llm_stringifies_amount_fee jlObjW "TS" clientW "OCRTXT"
      ((parse_with_llm jlObjW "TS" clientW "OCRTXT").1.getD []) none
      [("amount", Json.num 1500), ("bogus_key", Json.str "x")] "amount"
      (Json.num 1500) rfl rfl (Or.inl rfl) rfl
      (fun hc => Json.noConfusion hc)).1,
   (parse_with_llm_stringifies_amount_fee jlObjW "TS" clientW "OCRTXT"
      ((parse_with_llm jlObjW "TS" clientW "OCRTXT").1.getD []) none
      [("amount", Json.num 1500), ("bogus_key", Json.str "x")] "amount"
      (Json.num 1500) rfl rfl (Or.inl rfl) rfl
      (fun hc => Json.noConfusion hc)).2,
   rfl⟩

/-- C5 (counterexample): on an unparseable LLM response,
`extract_and_parse.py`'s `parse_with_llm` returns an error that does **not**
contain the raw response text (`RAW_LLM_RESPONSE_TEXT` does not occur in the
returned message, which carries only the `JSONDecodeError` text). -/
theorem parse_error_lacks_raw_response :
    parse_with_llm jlFailW "TS" clientW "some ocr text"
      = (none, some "Failed to parse JSON response: Expecting value: line 1 column 1 (char 0)") ∧
    clientW (build_prompt "some ocr text") = "RAW_LLM_RESPONSE_TEXT" ∧
    containsSub "RAW_LLM_RESPONSE_TEXT".toList
      "Failed to parse JSON response: Expecting value: line 1 column 1 (char 0)".toList
      = false :=
  ⟨rfl, rfl, by decide⟩

/-- C5 (amended): on an unparseable LLM response both structuring variants
return no record together with an error and perform no retry (the result
depends only on the single response to the single prompt);
`main.py`'s variant appends the fence-stripped response text to its error,
while `extract_and_parse.py`'s variant reports only the JSON decoder's
message without the response text. -/
theorem parse_malformed_response_no_retry (jl : String → Except String Json)
    (now : String) (client : String → String) (ocr_text : String)
    (e1 e2 : String)
    (h1 : jl (client (build_prompt ocr_text)) = .error e1)
    (h2 : jl (strip_fences (client (main_build_prompt ocr_text))) = .error e2) :
    parse_with_llm jl now client ocr_text
      = (none, some ("Failed to parse JSON response: " ++ e1)) ∧
    main_parse_with_llm jl now client ocr_text
      = (none, some ("Failed to parse JSON response: " ++ e2 ++ "\nRaw response: "
          ++ strip_fences (client (main_build_prompt ocr_text)))) ∧
    (∀ client2, client2 (build_prompt ocr_text) = client (build_prompt ocr_text) →
      parse_with_llm jl now client2 ocr_text
        = parse_with_llm jl now client ocr_text) ∧
    (∀ client2, client2 (main_build_prompt ocr_text)
        = client (main_build_prompt ocr_text) →
      main_parse_with_llm jl now client2 ocr_text
        = main_parse_with_llm jl now client ocr_text) := by
  refine ⟨?_, ?_, ?_, ?_⟩
  · simp [parse_with_llm, h1]
  · simp [main_parse_with_llm, h2]
  · intro client2 hc
    simp [parse_with_llm, hc]
  · intro client2 hc
    simp [main_parse_with_llm, hc]

/-- Witness for C5 (amended) at the constant failing decoder. -/
theorem parse_malformed_response_no_retry_witness :
    parse_with_llm jlFailW "TS" clientW "ocr"
      = (none, some ("Failed to parse JSON response: "
          ++ "Expecting value: line 1 column 1 (char 0)")) ∧
    main_parse_with_llm jlFailW "TS" clientW "ocr"
      = (none, some ("Failed to parse JSON response: "
          ++ "Expecting value: line 1 column 1 (char 0)" ++ "\nRaw response: "
          ++ strip_fences (clientW (main_build_prompt "ocr")))) ∧
    (∀ client2, client2 (build_prompt "ocr") = clientW (build_prompt "ocr") →
      parse_with_llm jlFailW "TS" client2 "ocr"
        = parse_with_llm jlFailW "TS" clientW "ocr") ∧
    (∀ client2, client2 (main_build_prompt "ocr")
        = clientW (main_build_prompt "ocr") →
      main_parse_with_llm jlFailW "TS" client2 "ocr"
        = main_parse_with_llm jlFailW "TS" clientW "ocr") :=
  parse_malformed_response_no_retry jlFailW "TS" clientW "ocr"
    "Expecting value: line 1 column 1 (char 0)"
    "Expecting value: line 1 column 1 (char 0)" rfl rfl
